import Mathlib

/-!
Verification of the git status-aggregation engine (`src/utils/git.ts`).

The engine issues external git queries and parses their text responses.
We embed each query's outcome as an `Option String`: `some resp` when the
underlying command succeeded with output `resp`, `none` when it failed
(non-zero exit / rejection).  Each field extractor is then a pure Lean
function from its query outcome to its typed result, translated directly
from the source; `getGitStatusInfo` joins the four extractors, failing
(returning `none`) exactly when one of its awaited promises rejects.
-/

namespace GitForEach

/-- `IShortStatusInfo` from `models`: status text plus the too-many-changes
flag.  In the source the success path omits `tooManyChanges` (JS
`undefined`, falsy), which we embed as `false`. -/
structure IShortStatusInfo where
  status : String
  tooManyChanges : Bool
deriving DecidableEq

/-- `IModifiedCount` from `models`: counts parsed from `git diff --shortstat`. -/
structure IModifiedCount where
  files : Nat
  insertions : Nat
  deletions : Nat
deriving DecidableEq

/-- `IDiffCommitCount` from `models`: ahead/behind counts, `none`
embedding the source's `null` (no upstream configured). -/
structure IDiffCommitCount where
  ahead : Option Nat
  behind : Option Nat
deriving DecidableEq

/-- `IGitStatus` from `models`: the aggregate record built by
`getGitStatusInfo`. -/
structure IGitStatus where
  name : String
  path : String
  status : String
  branch : String
  diffCommitCount : IDiffCommitCount
  modifiedCount : IModifiedCount
  isDirty : Bool
  hasUnsavedChanges : Bool
  tooManyChanges : Bool
  hasUnmergedCommits : Bool
  hasUnsyncedCommits : Bool
deriving DecidableEq

/-- Modelled from the spec: the utils index (`import ... from "."`) is not
under `src/`; its `trimWhitespace` "trims surrounding whitespace". -/
def trimWhitespace (s : String) : String :=
  ⟨((s.toList.dropWhile Char.isWhitespace).reverse.dropWhile Char.isWhitespace).reverse⟩

/-- Modelled from the spec: the utils index's `trimNewLines` trims the
multi-line text, i.e. strips leading and trailing newline characters. -/
def trimNewLines (s : String) : String :=
  ⟨((s.toList.dropWhile (· == '\n')).reverse.dropWhile (· == '\n')).reverse⟩

/-- Modelled from the spec: the utils index's `getDirectoryName` derives
"the repository's display name from the final path segment". -/
def getDirectoryName (path : String) : String :=
  ⟨path.toList.foldl (fun acc c => if c = '/' then [] else acc ++ [c]) []⟩

/-- Modelled from the spec: the utils index's `filterAsync` filters a list
by a predicate, "result order preserving input order". -/
def filterAsync (l : List String) (p : String → Bool) : List String :=
  l.filter p

/-- Does `l` start with the pattern `pat`?  (List-level prefix test used
to embed matching a literal part of a regex.) -/
def startsWith : List Char → List Char → Bool
  | [], _ => true
  | _ :: _, [] => false
  | p :: ps, c :: cs => p == c && startsWith ps cs

/-- Numeric value of a digit string, as JS `Number` computes it on a
string of decimal digits (`Number("") = 0` matches `natOfDigits [] = 0`). -/
def natOfDigits (ds : List Char) : Nat :=
  ds.foldl (fun n c => n * 10 + (c.toNat - 48)) 0

/-- Leftmost match of the regex `(\d+)pat` (one-or-more digits followed by
the literal `pat`), returning the captured number: at each position, a
digit whose maximal digit run is immediately followed by `pat` yields the
run's value; otherwise the scan continues rightward. -/
def matchNumThen (pat : List Char) : List Char → Option Nat
  | [] => none
  | c :: cs =>
    if c.isDigit && startsWith pat (cs.dropWhile Char.isDigit) then
      some (natOfDigits (c :: cs.takeWhile Char.isDigit))
    else
      matchNumThen pat cs

/-- `getGitShortStatus` (git.ts lines 7-16): on command success, the
trimmed response with no `tooManyChanges` flag; on failure, empty status
with `tooManyChanges: true`.  The try/catch means this never fails. -/
def getGitShortStatus (resp : Option String) : IShortStatusInfo :=
  match resp with
  | some r => { status := trimNewLines r, tooManyChanges := false }
  | none => { status := "", tooManyChanges := true }

/-- `getCurrentBranch` (git.ts lines 18-22): no try/catch, so a command
failure propagates (`none`); on success, `trimWhitespace(resp) ||
'Detached Head'`. -/
def getCurrentBranch (resp : Option String) : Option String :=
  resp.map (fun r =>
    let t := trimWhitespace r
    if t = "" then "Detached Head" else t)

/-- `getModifiedCounts` (git.ts lines 24-38): `tryCmd` swallows failure,
so the input is the destructured first element `stats` (`none` when the
query failed or returned nothing).  JS `if (!stats)` is also true for the
empty string.  Each count is `Number(stats.match(/(\d+) word/)?.[1] || 0)`. -/
def getModifiedCounts (statsLine : Option String) : IModifiedCount :=
  match statsLine with
  | none => { files := 0, insertions := 0, deletions := 0 }
  | some stats =>
    if stats = "" then { files := 0, insertions := 0, deletions := 0 }
    else
      let cs := stats.toList
      { files := (matchNumThen " files".toList cs).getD 0
        insertions := (matchNumThen " insertions".toList cs).getD 0
        deletions := (matchNumThen " deletions".toList cs).getD 0 }

/-- `getAheadBehindCount` (git.ts lines 40-54): on failure (no upstream),
`{ahead: null, behind: null}`.  On success, `resp.match(/(\d*)\s*(\d*)/)`
always matches at position 0 with greedy groups: the maximal digit prefix,
then maximal whitespace, then a maximal digit run; `Number` of each
(empty group gives 0). -/
def getAheadBehindCount (resp : Option String) : IDiffCommitCount :=
  match resp with
  | none => { ahead := none, behind := none }
  | some r =>
    let cs := r.toList
    let ds1 := cs.takeWhile Char.isDigit
    let rest := (cs.dropWhile Char.isDigit).dropWhile Char.isWhitespace
    let ds2 := rest.takeWhile Char.isDigit
    { ahead := some (natOfDigits ds1), behind := some (natOfDigits ds2) }

/-- JS `Boolean` on a value that is `null` or a number: `null` and `0`
are falsy, any other number truthy. -/
def jsTruthyNat (o : Option Nat) : Bool :=
  match o with
  | none => false
  | some n => n != 0

/-- The outcomes of the four external queries `getGitStatusInfo` issues
against one path (`none` = the underlying command failed; for the diff
stat, `none` also covers `tryCmd` yielding no line). -/
structure GitEnv where
  branchResp : Option String
  shortStatusResp : Option String
  aheadBehindResp : Option String
  diffStatLine : Option String
deriving DecidableEq

/-- `getGitStatusInfo` (git.ts lines 97-126): `Promise.all` of the four
extractors.  Only `getCurrentBranch` can reject, in which case the join
rejects (`none`); otherwise the record is assembled with the derived
boolean flags exactly as in lines 108-124. -/
def getGitStatusInfo (path : String) (env : GitEnv) : Option IGitStatus :=
  match getCurrentBranch env.branchResp with
  | none => none
  | some branch =>
    let statusInfo := getGitShortStatus env.shortStatusResp
    let diffCommitCount := getAheadBehindCount env.aheadBehindResp
    let modifiedCount := getModifiedCounts env.diffStatLine
    let isDirty := modifiedCount.files != 0
    let hasUnmergedCommits := jsTruthyNat diffCommitCount.ahead
    let hasUnsyncedCommits :=
      jsTruthyNat diffCommitCount.ahead || jsTruthyNat diffCommitCount.behind
    let hasUnsavedChanges := isDirty || hasUnmergedCommits
    some {
      name := getDirectoryName path
      path := path
      status := statusInfo.status
      branch := branch
      diffCommitCount := diffCommitCount
      modifiedCount := modifiedCount
      isDirty := isDirty
      hasUnsavedChanges := hasUnsavedChanges
      tooManyChanges := statusInfo.tooManyChanges || decide (statusInfo.status.length > 1000)
      hasUnmergedCommits := hasUnmergedCommits
      hasUnsyncedCommits := hasUnsyncedCommits
    }

/-- The filesystem/git environment `getGitDirectories` queries:
`revParseResp p` is the outcome of `git -C p rev-parse
--is-inside-work-tree`, and `subdirs p` the immediate subdirectories
returned by the utils index's `getDirectories` (modelled from the spec:
"lists the immediate subdirectories"). -/
structure FsEnv where
  revParseResp : String → Option String
  subdirs : String → List String

/-- `isGitDirectory` (git.ts lines 79-87): `trimWhitespace(resp) ==
'true'` on success, `false` on any failure. -/
def isGitDirectory (env : FsEnv) (path : String) : Bool :=
  match env.revParseResp path with
  | some r => trimWhitespace r == "true"
  | none => false

/-- `getGitDirectories` (git.ts lines 90-95): the root itself when it is
a working tree, else its subdirectories filtered by `isGitDirectory`. -/
def getGitDirectories (env : FsEnv) (path : String) : List String :=
  if isGitDirectory env path then [path]
  else filterAsync (env.subdirs path) (isGitDirectory env)

end GitForEach

namespace GitForEach

/-- Truthiness of an ahead/behind field spelled out: present and positive. -/
theorem jsTruthyNat_iff (o : Option Nat) :
    jsTruthyNat o = true ↔ ∃ n, o = some n ∧ 0 < n := by
  cases o with
  | none => simp [jsTruthyNat]
  | some n => simp [jsTruthyNat, bne_iff_ne, Nat.pos_iff_ne_zero]

/-- Claim C1, counterexample: when the branch query fails (and the other
three queries succeed), `getGitStatusInfo` fails instead of returning a
well-formed record — `getCurrentBranch` has no internal failure handling,
so the join itself fails, contradicting the claim that a record is
returned even when the branch query fails. -/
theorem claim1_counterexample :
    getGitStatusInfo "/w" ⟨none, some "", some "", some ""⟩ = none := rfl

/-- Claim C1, amended: the short-status, ahead/behind and diff-stat
extractors absorb their own query failures, so `getGitStatusInfo` returns
a well-formed record whenever the branch query succeeds, even when all
three other queries fail; when the branch query fails, the join fails and
no record is produced. -/
theorem claim1_branch_gates_join (path : String) (env : GitEnv) :
    (env.branchResp.isSome = true → (getGitStatusInfo path env).isSome = true) ∧
    (env.branchResp = none → getGitStatusInfo path env = none) := by
  cases h : env.branchResp with
  | none => simp [getGitStatusInfo, getCurrentBranch, h]
  | some r => simp [getGitStatusInfo, getCurrentBranch, h]

/-- Claim C1, witness: a record is produced when only the branch query
succeeds and the other three queries all fail. -/
theorem claim1_witness :
    (getGitStatusInfo "/w1" ⟨some "main", none, none, none⟩).isSome = true :=
  (claim1_branch_gates_join "/w1" ⟨some "main", none, none, none⟩).1 rfl

/-- Claim C2: in every produced record, `tooManyChanges` is true iff the
short-status query failed or the stored status text exceeds 1000
characters — the two signals are OR'd. -/
theorem claim2_tooManyChanges_iff (path : String) (env : GitEnv) (g : IGitStatus)
    (h : getGitStatusInfo path env = some g) :
    g.tooManyChanges = true ↔ (env.shortStatusResp = none ∨ 1000 < g.status.length) := by
  cases hb : env.branchResp with
  | none => simp [getGitStatusInfo, getCurrentBranch, hb] at h
  | some r =>
    simp [getGitStatusInfo, getCurrentBranch, hb] at h
    cases hs : env.shortStatusResp with
    | none => subst h; simp [getGitShortStatus, hs]
    | some s => subst h; simp [getGitShortStatus, hs]

/-- The query outcomes used by the C2 witness: branch succeeds, the
short-status query fails, the other two succeed with empty output. -/
def envClaim2 : GitEnv := ⟨some "b", none, some "", some ""⟩

/-- The record `getGitStatusInfo "/x" envClaim2` produces. -/
def gClaim2 : IGitStatus :=
  ⟨"x", "/x", "", "b", ⟨some 0, some 0⟩, ⟨0, 0, 0⟩, false, false, true, false, false⟩

/-- Claim C2, witness: the iff at a concrete record whose short-status
query failed. -/
theorem claim2_witness :
    gClaim2.tooManyChanges = true ↔
      (envClaim2.shortStatusResp = none ∨ 1000 < gClaim2.status.length) :=
  claim2_tooManyChanges_iff "/x" envClaim2 gClaim2 (by decide)

/-- Claim C3: when the ahead/behind query fails (no upstream configured),
both counts are absent (`none`, not zero) in the produced record, and the
derived flags `hasUnmergedCommits` and `hasUnsyncedCommits` are both
false. -/
theorem claim3_no_upstream_absent (path : String) (env : GitEnv) (g : IGitStatus)
    (hab : env.aheadBehindResp = none)
    (h : getGitStatusInfo path env = some g) :
    g.diffCommitCount.ahead = none ∧ g.diffCommitCount.behind = none ∧
    g.hasUnmergedCommits = false ∧ g.hasUnsyncedCommits = false := by
  cases hb : env.branchResp with
  | none => simp [getGitStatusInfo, getCurrentBranch, hb] at h
  | some r =>
    simp [getGitStatusInfo, getCurrentBranch, hb] at h
    subst h
    simp [getAheadBehindCount, hab, jsTruthyNat]

/-- The query outcomes used by the C3 witness: the ahead/behind query
fails, the others succeed with simple output. -/
def envClaim3 : GitEnv := ⟨some "main", some "", none, some ""⟩

/-- The record `getGitStatusInfo "/y" envClaim3` produces. -/
def gClaim3 : IGitStatus :=
  ⟨"y", "/y", "", "main", ⟨none, none⟩, ⟨0, 0, 0⟩, false, false, false, false, false⟩

/-- Claim C3, witness: absence of both counts and both flags false at a
concrete no-upstream record. -/
theorem claim3_witness :
    gClaim3.diffCommitCount.ahead = none ∧ gClaim3.diffCommitCount.behind = none ∧
    gClaim3.hasUnmergedCommits = false ∧ gClaim3.hasUnsyncedCommits = false :=
  claim3_no_upstream_absent "/y" envClaim3 gClaim3 rfl (by decide)

/-- Claim C4: every produced record satisfies the four flag-derivation
invariants, including the all-absent/all-zero default record. -/
theorem claim4_flag_invariants (path : String) (env : GitEnv) (g : IGitStatus)
    (h : getGitStatusInfo path env = some g) :
    (g.isDirty = true ↔ 0 < g.modifiedCount.files) ∧
    (g.hasUnmergedCommits = true ↔ ∃ a, g.diffCommitCount.ahead = some a ∧ 0 < a) ∧
    (g.hasUnsyncedCommits = true ↔
      (g.hasUnmergedCommits = true ∨ ∃ b, g.diffCommitCount.behind = some b ∧ 0 < b)) ∧
    (g.hasUnsavedChanges = (g.isDirty || g.hasUnmergedCommits)) := by
  cases hb : env.branchResp with
  | none => simp [getGitStatusInfo, getCurrentBranch, hb] at h
  | some r =>
    simp [getGitStatusInfo, getCurrentBranch, hb] at h
    subst h
    refine ⟨?_, jsTruthyNat_iff _, ?_, rfl⟩
    · simp [bne_iff_ne, Nat.pos_iff_ne_zero]
    · simp [Bool.or_eq_true, jsTruthyNat_iff]

/-- The query outcomes used by the C4 witness: only the branch and
short-status queries succeed, so the produced record is the
all-absent/all-zero default record. -/
def envClaim4 : GitEnv := ⟨some "m", some "", none, none⟩

/-- The record `getGitStatusInfo "/z" envClaim4` produces. -/
def gClaim4 : IGitStatus :=
  ⟨"z", "/z", "", "m", ⟨none, none⟩, ⟨0, 0, 0⟩, false, false, false, false, false⟩

/-- Claim C4, witness: the four invariants at the concrete
all-absent/all-zero default record. -/
theorem claim4_witness :
    (gClaim4.isDirty = true ↔ 0 < gClaim4.modifiedCount.files) ∧
    (gClaim4.hasUnmergedCommits = true ↔
      ∃ a, gClaim4.diffCommitCount.ahead = some a ∧ 0 < a) ∧
    (gClaim4.hasUnsyncedCommits = true ↔
      (gClaim4.hasUnmergedCommits = true ∨
        ∃ b, gClaim4.diffCommitCount.behind = some b ∧ 0 < b)) ∧
    (gClaim4.hasUnsavedChanges = (gClaim4.isDirty || gClaim4.hasUnmergedCommits)) :=
  claim4_flag_invariants "/z" envClaim4 gClaim4 (by decide)

/-- Claim C5: `getModifiedCounts` returns the all-zero record when the
diff query yields no summary line, and extracts the three optional
numeric groups with zero defaults on the spec's two example lines. -/
theorem claim5_modified_counts_extraction :
    getModifiedCounts none = ⟨0, 0, 0⟩ ∧
    getModifiedCounts (some "") = ⟨0, 0, 0⟩ ∧
    getModifiedCounts (some "8 files changed, 595 deletions(-)") = ⟨8, 0, 595⟩ ∧
    getModifiedCounts (some "4 files changed, 15 insertions(+), 5 deletions(-)") =
      ⟨4, 15, 5⟩ := by
  decide

/-- The query outcomes used by claim C6: the diff summary uses singular
word forms (exactly one modified file). -/
def envClaim6 : GitEnv :=
  ⟨some "main", some "", some "", some "1 file changed, 1 insertion(+), 1 deletion(-)"⟩

/-- Claim C6: on a singular-form diff summary the extraction patterns
(which match only the plural words) all miss, so every count is zero and
the resulting record for a repository with exactly one modified file has
`isDirty = false`. -/
theorem claim6_singular_forms_yield_zero :
    getModifiedCounts (some "1 file changed, 1 insertion(+), 1 deletion(-)") = ⟨0, 0, 0⟩ ∧
    (getGitStatusInfo "/r" envClaim6).map IGitStatus.isDirty = some false := by
  decide

/-- Claim C7: a root that is itself a working tree yields exactly
`[root]`; otherwise the result is exactly the immediate subdirectories
that are working trees, in input order (an order-preserving filter). -/
theorem claim7_discover_working_trees (env : FsEnv) (root : String) :
    (isGitDirectory env root = true → getGitDirectories env root = [root]) ∧
    (isGitDirectory env root = false →
      getGitDirectories env root = (env.subdirs root).filter (isGitDirectory env)) := by
  constructor <;> intro h <;> simp [getGitDirectories, filterAsync, h]

/-- The filesystem environment of the C7 witness: the root is a working
tree and has one subdirectory. -/
def envClaim7 : FsEnv :=
  { revParseResp := fun p => if p = "/repo" then some "true\n" else none
    subdirs := fun _ => ["/repo/sub"] }

/-- Claim C7, witness: a root that is itself a working tree yields
exactly itself, its subdirectory ignored. -/
theorem claim7_witness : getGitDirectories envClaim7 "/repo" = ["/repo"] :=
  (claim7_discover_working_trees envClaim7 "/repo").1 (by decide)

/-- Claim C8: a successful response containing no digit characters still
parses to ahead = 0 and behind = 0 (both present, not absent): the
lenient pattern makes an unparseable response indistinguishable from an
in-sync repository. -/
theorem claim8_lenient_ahead_behind :
    ("no digits here!".toList.all (fun c => !c.isDigit)) = true ∧
    getAheadBehindCount (some "no digits here!") = ⟨some 0, some 0⟩ := by
  decide

/-- Claim C9: the short-status extractor returns the trimmed text with
`tooManyChanges = false` on query success, and empty text with
`tooManyChanges = true` on query failure, never failing itself. -/
theorem claim9_short_status_contract :
    (∀ resp : String, getGitShortStatus (some resp) =
      { status := trimNewLines resp, tooManyChanges := false }) ∧
    getGitShortStatus none = { status := "", tooManyChanges := true } :=
  ⟨fun _ => rfl, rfl⟩

/-- Claim C10: on every branch-query response, the returned branch is
never empty: it is the whitespace-trimmed response, or the fixed
non-empty sentinel label when the trimmed response is empty. -/
theorem claim10_branch_trim_sentinel (resp : String) :
    ∃ b, getCurrentBranch (some resp) = some b ∧ b ≠ "" ∧
      ((trimWhitespace resp = "" ∧ b = "Detached Head") ∨ b = trimWhitespace resp) := by
  by_cases h : trimWhitespace resp = ""
  · exact ⟨"Detached Head", by simp [getCurrentBranch, h], by decide, Or.inl ⟨h, rfl⟩⟩
  · exact ⟨trimWhitespace resp, by simp [getCurrentBranch, h], h, Or.inr rfl⟩

end GitForEach
